import Mathlib

/-!
# Verification of the baptiste4 file-sync upload scripts

Shallow embedding of the two near-duplicate Python scripts
`upload_via_curl.py` and `upload_via_gh.py`, which walk a directory tree
and create-or-update each file in a remote content store.  Byte values
are modelled as `Nat` (each < 256), JSON parsing outcomes as small
inductive types, and each external process invocation by the data the
script inspects about it (return code, parsed stdout, stderr, timeout).
-/

namespace Baptiste

/-! ## Base64 (`base64.b64encode` / `base64.b64decode`)

Standard base64 with `=` padding, over byte lists.  Three input bytes
become four alphabet characters; a final group of one or two bytes is
padded with `==` or `=`. -/

/-- The 64-character base64 alphabet. -/
def b64Table : List Char :=
  "ABCDEFGHIJKLMNOPQRSTUVWXYZabcdefghijklmnopqrstuvwxyz0123456789+/".toList

/-- Alphabet character for a 6-bit value. -/
def b64Char (n : Nat) : Char := b64Table.getD n 'A'

/-- Index of a character in the base64 alphabet. -/
def b64Idx (c : Char) : Nat := b64Table.indexOf c

/-- Base64 encoding of a byte list, with `=` padding on the final group. -/
def b64Encode : List Nat → List Char
  | [] => []
  | [a] => [b64Char (a / 4), b64Char (a % 4 * 16), '=', '=']
  | [a, b] => [b64Char (a / 4), b64Char (a % 4 * 16 + b / 16), b64Char (b % 16 * 4), '=']
  | a :: b :: c :: rest =>
      b64Char (a / 4) :: b64Char (a % 4 * 16 + b / 16) ::
        b64Char (b % 16 * 4 + c / 64) :: b64Char (c % 64) :: b64Encode rest

/-- Decode one four-character base64 group, honouring `=` padding. -/
def b64DecodeGroup (c1 c2 c3 c4 : Char) : List Nat :=
  let i1 := b64Idx c1
  let i2 := b64Idx c2
  if c3 = '=' then [i1 * 4 + i2 / 16]
  else
    let i3 := b64Idx c3
    if c4 = '=' then [i1 * 4 + i2 / 16, i2 % 16 * 16 + i3 / 4]
    else [i1 * 4 + i2 / 16, i2 % 16 * 16 + i3 / 4, i3 % 4 * 64 + b64Idx c4]

/-- Base64 decoding: process the character list in groups of four. -/
def b64Decode : List Char → List Nat
  | c1 :: c2 :: c3 :: c4 :: rest => b64DecodeGroup c1 c2 c3 c4 ++ b64Decode rest
  | _ => []

/-! ## Shared modelling of parsed JSON responses

A lookup-response body is either unparseable (`json.loads` raises) or a
JSON object whose `sha` field is absent, `null`, or a string.  A
PUT-response body (inspected only by `upload_via_curl.py`) is either
unparseable or an object that does or does not contain a `content`
field. -/

/-- The `sha` field of a parsed lookup-response object. -/
inductive ShaField
  | absent
  | null
  | str (s : String)
deriving DecidableEq

/-- Parse outcome of a lookup-response body. -/
inductive GetBody
  | malformed
  | jsonObj (sha : ShaField)
deriving DecidableEq

/-- Parse outcome of a PUT-response body, by whether `'content' in resp`. -/
inductive PutBody
  | malformed
  | jsonObj (hasContent : Bool)
deriving DecidableEq

/-- Python `dict.get('sha')`: `None` for an absent key and for a JSON
`null` value alike, the string itself otherwise. -/
def dictGetSha : ShaField → Option String
  | .absent => none
  | .null => none
  | .str s => some s

/-- Python truthiness of the `sha` variable: `None` and `''` are falsy. -/
def truthy : Option String → Bool
  | none => false
  | some s => s ≠ ""

/-- `if sha: ...` guard used by both scripts before attaching the token
to the write request: the token actually sent. -/
def shaIfTruthy (sha : Option String) : Option String :=
  if truthy sha then sha else none

/-- Outcome of one file's sync attempt, with the raw diagnostic text on
failure (the cosmetic `.strip()` applied when printing is elided). -/
inductive SyncResult
  | success
  | failure (diag : String)
deriving DecidableEq

/-- A request issued to the remote store during one loop iteration:
the existence lookup, or the write carrying an optional token. -/
inductive Event
  | getReq (path : String)
  | putReq (path : String) (sha : Option String)
deriving DecidableEq

/-- An external command invocation together with the `timeout=` argument
passed to `subprocess.run` (in seconds), `none` when no timeout is passed. -/
structure ExtCall where
  argv : List String
  timeoutSec : Option Nat
deriving DecidableEq

/-! ## `upload_via_curl.py` -/

/-- The fate of the `gh api` GET subprocess: it either times out
(`subprocess.TimeoutExpired`) or completes with a return code and a
stdout that parses as `GetBody`. -/
inductive CurlLookup
  | timeout
  | completed (returncode : Int) (body : GetBody)
deriving DecidableEq

/-- `gh_get` (lines 8–14): the returncode/stdout pair the caller sees.
On timeout it fabricates a `CompletedProcess` with returncode 2 and
empty stdout; the empty string is not valid JSON, hence `.malformed`. -/
def curl_gh_get : CurlLookup → Int × GetBody
  | .timeout => (2, .malformed)
  | .completed rc body => (rc, body)

/-- Lines 50–56: `sha` stays `None` unless the lookup returned 0 and its
stdout parsed, in which case `sha = obj.get('sha')`. -/
def curlLookupSha (l : CurlLookup) : Option String :=
  let p := curl_gh_get l
  if p.1 = 0 then
    match p.2 with
    | .malformed => none
    | .jsonObj sf => dictGetSha sf
  else none

/-- The JSON payload written to `/tmp/payload.json` (lines 66–68): the
`sha` key is added only under `if sha:`. -/
structure PutPayload where
  message : String
  content : String
  sha : Option String
deriving DecidableEq

/-- Lines 66–68: build the payload for one file. -/
def curlPayload (rel : String) (content_b64 : String) (sha : Option String) : PutPayload :=
  { message := "chore: add " ++ rel ++ " via API"
    content := content_b64
    sha := shaIfTruthy sha }

/-- The fate of the `curl` PUT subprocess: timeout, or completion with a
return code, a stdout (kept raw, and as parsed), and a stderr. -/
inductive CurlPut
  | timeout
  | completed (returncode : Int) (body : PutBody) (stdoutRaw stderrRaw : String)
deriving DecidableEq

/-- Lines 77–97: classify one PUT attempt.  Success needs returncode 0,
a JSON-parseable stdout, and a `content` field; otherwise the failure
records `'curl timeout'`, `'invalid response'`, the raw stdout, or the
raw stderr respectively. -/
def curlClassify : CurlPut → SyncResult
  | .timeout => .failure "curl timeout"
  | .completed rc body out err =>
      if rc = 0 then
        match body with
        | .malformed => .failure "invalid response"
        | .jsonObj hasContent => if hasContent then .success else .failure out
      else .failure err

/-- Environment of one iteration of the curl main loop: the file's
relative path, the lookup outcome, the bytes read from disk (`none` when
`open`/`read` raises), and the PUT outcome were a PUT issued. -/
structure CurlFileInput where
  rel : String
  lookup : CurlLookup
  readData : Option (List Nat)
  put : CurlPut
deriving DecidableEq

/-- One iteration of the curl main loop (lines 48–97): the requests it
issues in order, and the per-file result.  The lookup happens first
(line 49); a read failure (lines 58–64) counts as an error and skips the
PUT; otherwise the payload is built from the base64-encoded bytes and
the PUT issued. -/
def curlFileStep (fi : CurlFileInput) : List Event × SyncResult :=
  let sha := curlLookupSha fi.lookup
  match fi.readData with
  | none => ([.getReq fi.rel], .failure "read")
  | some bytes =>
      let payload := curlPayload fi.rel (String.mk (b64Encode bytes)) sha
      ([.getReq fi.rel, .putReq fi.rel payload.sha], curlClassify fi.put)

/-! ## `upload_via_gh.py` -/

/-- The repository constant shared by both scripts. -/
def REPO : String := "dahemar/baptiste2"

/-- Lines 44–51 of `upload_via_gh.py`: `sha` is set only when the lookup
returned 0, its stdout parsed, and `'sha' in obj`; a `null` field then
assigns `None` to `sha`. -/
def ghLookupSha (rc : Int) (body : GetBody) : Option String :=
  if rc = 0 then
    match body with
    | .malformed => none
    | .jsonObj sf =>
        match sf with
        | .absent => none
        | .null => none
        | .str s => some s
  else none

/-- Lines 15–16 of `upload_via_gh.py`: the `['-f', f'sha={sha}']`
extension appended to the command only under `if sha:`. -/
def ghPutShaArgs (sha : Option String) : List String :=
  match shaIfTruthy sha with
  | some s => ["-f", "sha=" ++ s]
  | none => []

/-- `gh_put` (lines 13–18): the argv of the PUT invocation. -/
def gh_put_cmd (path message content_b64 : String) (sha : Option String) : List String :=
  ["gh", "api", "--method", "PUT", "/repos/" ++ REPO ++ "/contents/" ++ path,
    "-f", "message=" ++ message, "-f", "content=" ++ content_b64] ++ ghPutShaArgs sha

/-- Lines 55–60 of `upload_via_gh.py`: classification looks only at the
process return code; the response body is never parsed. -/
def ghClassify (putRc : Int) (putStderr : String) : SyncResult :=
  if putRc = 0 then .success else .failure putStderr

/-- Environment of one iteration of the gh main loop: path, bytes read
(`none` when `open`/`read` raises), lookup returncode and parsed body,
and the PUT process' returncode, stdout (parsed form) and stderr. -/
structure GhFileInput where
  rel : String
  readData : Option (List Nat)
  lookupRc : Int
  lookupBody : GetBody
  putRc : Int
  putStdout : PutBody
  putStderr : String
deriving DecidableEq

/-- One iteration of the gh main loop (lines 34–60): the file is read
first (lines 34–40, error counted and iteration skipped on failure),
then the lookup (line 43), then the PUT (line 54). -/
def ghFileStep (fi : GhFileInput) : List Event × SyncResult :=
  match fi.readData with
  | none => ([], .failure "read")
  | some _ =>
      let sha := ghLookupSha fi.lookupRc fi.lookupBody
      ([.getReq fi.rel, .putReq fi.rel (shaIfTruthy sha)],
        ghClassify fi.putRc fi.putStderr)

/-! ## Counters, summary and exit status (both scripts) -/

/-- `success`/`errors` update for one per-file result. -/
def countStep : Nat × Nat → SyncResult → Nat × Nat
  | (s, e), .success => (s + 1, e)
  | (s, e), .failure _ => (s, e + 1)

/-- Counter totals of a whole curl run, starting from `(0, 0)`. -/
def curlRunCounts (files : List CurlFileInput) : Nat × Nat :=
  files.foldl (fun acc fi => countStep acc (curlFileStep fi).2) (0, 0)

/-- Counter totals of a whole gh run, starting from `(0, 0)`. -/
def ghRunCounts (files : List GhFileInput) : Nat × Nat :=
  files.foldl (fun acc fi => countStep acc (ghFileStep fi).2) (0, 0)

/-- Final `sys.exit`: 2 when any error occurred, 0 otherwise
(curl lines 100–103, gh lines 63–66). -/
def exitCode (counts : Nat × Nat) : Nat := if counts.2 > 0 then 2 else 0

/-! ## Tree enumeration and exclusions

A file found by `os.walk` is modelled by its directory's path
components relative to the root (`os.walk` starts at `ROOT='.'`, so the
real `dirpath` carries a leading `'.'` component, which can never equal
`'.git'`) together with the file name. -/

/-- One file yielded by `os.walk`: directory components under the root,
and the file name. -/
structure WalkEntry where
  dir : List String
  name : String
deriving DecidableEq

/-- `os.path.relpath(os.path.join(dirpath, fname), ROOT)`: the
slash-joined path relative to the root. -/
def relOf (e : WalkEntry) : String := String.intercalate "/" (e.dir ++ [e.name])

/-- The fixed prefix/suffix exclusions of `upload_via_curl.py`
(lines 39–46). -/
def curlExcludedRel (rel : String) : Bool :=
  rel.startsWith "astro-app/.git-submodule-backup" ||
  rel.startsWith ".video_push_logs" ||
  rel.startsWith "astro-app/.astro" ||
  rel.endsWith ".DS_Store"

/-- `upload_via_curl.py` skip decision for one walk entry: a `.git`
path component (line 33) or an exclusion match (lines 39–46). -/
def curlSkip (e : WalkEntry) : Bool :=
  e.dir.contains ".git" || curlExcludedRel (relOf e)

/-- Generic enumeration: keep each walk entry passing the guard, in
order, as its relative path. -/
def enumWith (keep : WalkEntry → Bool) (entries : List WalkEntry) : List String :=
  entries.filterMap fun e => if keep e then some (relOf e) else none

/-- The relative paths `upload_via_curl.py` attempts to sync, one per
surviving walk entry. -/
def curlEnumerate (entries : List WalkEntry) : List String :=
  enumWith (fun e => !curlSkip e) entries

/-- `os.path.join(dirpath, fname)` in `upload_via_gh.py`: the literal
path string has a leading `'.'` component, since `dirpath` starts at
`ROOT='.'`.  Modelled as its component list. -/
def ghFp (e : WalkEntry) : List String := "." :: (e.dir ++ [e.name])

/-- `upload_via_gh.py` skip decision (lines 24–30): a `.git` component,
or the self-skip test `fp == os.path.abspath(__file__)`, which compares
the relative-style `fp` with an absolute path (leading `''` component
before the first slash). -/
def ghSkip (scriptAbs : List String) (e : WalkEntry) : Bool :=
  e.dir.contains ".git" || ghFp e = scriptAbs

/-- The relative paths `upload_via_gh.py` attempts to sync. -/
def ghEnumerate (scriptAbs : List String) (entries : List WalkEntry) : List String :=
  enumWith (fun e => !ghSkip scriptAbs e) entries

/-! ## Startup: credential acquisition and run shape -/

/-- The fate of the `gh auth token` subprocess (curl script only). -/
inductive TokenOutcome
  | timeout
  | completed (returncode : Int) (stdout : String)
deriving DecidableEq

/-- `get_token` (curl lines 16–25): `none` means `sys.exit(2)` was
reached (timeout, or nonzero return code); the token's `.strip()` is
elided as the token value is never inspected. -/
def get_token : TokenOutcome → Option String
  | .timeout => none
  | .completed rc out => if rc = 0 then some out else none

/-- Overall outcome of a run: aborted at startup before any file was
processed, or ran to the summary with final counters and exit code. -/
inductive RunOutcome
  | aborted (exit : Nat)
  | ran (success errors exit : Nat)
deriving DecidableEq

/-- `upload_via_curl.py` end to end: `TOKEN=get_token()` at line 27 runs
before the walk; its failure exits 2 with no file processed. -/
def curlMain (tok : TokenOutcome) (files : List CurlFileInput) : RunOutcome :=
  match get_token tok with
  | none => .aborted 2
  | some _ =>
      let c := curlRunCounts files
      .ran c.1 c.2 (exitCode c)

/-- The subprocess invocations `upload_via_curl.py` performs before the
walk begins: exactly the one `gh auth token` call (line 18, reached from
line 27). -/
def curlStartupCalls : List (List String) := [["gh", "auth", "token"]]

/-- The subprocess invocations `upload_via_gh.py` performs before the
walk begins: its module top level (lines 1–21) only defines functions
and constants, acquiring no token. -/
def ghStartupCalls : List (List String) := []

/-! ## Network calls and their timeouts -/

/-- Curl-script `gh api` GET (lines 9–11): `timeout=60`. -/
def curlGetCall (path : String) : ExtCall :=
  ⟨["gh", "api", "/repos/" ++ REPO ++ "/contents/" ++ path], some 60⟩

/-- Curl-script `gh auth token` (line 18): `timeout=10`. -/
def curlTokenCall : ExtCall := ⟨["gh", "auth", "token"], some 10⟩

/-- Curl-script `curl` PUT (lines 76–78): `timeout=120`. -/
def curlPutCall (headers : List String) (url : String) : ExtCall :=
  ⟨["curl", "-s", "-X", "PUT"] ++ headers ++ ["-d", "@/tmp/payload.json", url], some 120⟩

/-- Gh-script `gh api` GET (lines 9–10): `subprocess.run` with no
`timeout=` argument. -/
def ghGetCall (path : String) : ExtCall :=
  ⟨["gh", "api", "/repos/" ++ REPO ++ "/contents/" ++ path], none⟩

/-- Gh-script `gh api` PUT (lines 14–17): no `timeout=` argument. -/
def ghPutCall (path message content_b64 : String) (sha : Option String) : ExtCall :=
  ⟨gh_put_cmd path message content_b64 sha, none⟩

/-- Whether a per-file result is the success variant. -/
def isSuccess : SyncResult → Bool
  | .success => true
  | .failure _ => false

/-- Example walk entries for concrete evaluation: a plain file, a file
inside `.git`, an excluded build artifact, and an OS metadata file. -/
def sampleEntries : List WalkEntry :=
  [⟨[], "a.txt"⟩, ⟨[".git"], "config"⟩, ⟨["astro-app", ".astro"], "x"⟩, ⟨[], ".DS_Store"⟩]

/-- Example absolute path of the gh script, as a component list (leading
empty component before the first slash). -/
def sampleScriptAbs : List String := ["", "root", "upload_via_gh.py"]

/-- Example curl-loop iteration input: readable file, lookup succeeded
with token `T1`, PUT succeeded with a `content` field. -/
def sampleCurlInput : CurlFileInput :=
  ⟨"b.bin", .completed 0 (.jsonObj (.str "T1")), some [5],
    .completed 0 (.jsonObj true) "resp" ""⟩

/-- Example gh-loop iteration input: readable file, lookup failed with
return code 1, PUT process exited 0 with a body lacking `content`. -/
def sampleGhInput : GhFileInput :=
  ⟨"a.txt", some [7], 1, .malformed, 0, .jsonObj false, ""⟩

/-! ## Base64 round-trip -/

theorem b64Idx_b64Char : ∀ n < 64, b64Idx (b64Char n) = n := by decide

theorem b64Char_ne_pad : ∀ n < 64, b64Char n ≠ '=' := by decide

/-- Decoding inverts encoding on genuine byte lists. -/
theorem b64_decode_encode : ∀ l : List Nat, (∀ b ∈ l, b < 256) →
    b64Decode (b64Encode l) = l
  | [], _ => rfl
  | [a], h => by
      have ha : a < 256 := h a (by simp)
      have h1 : a / 4 < 64 := by omega
      have h2 : a % 4 * 16 < 64 := by omega
      simp [b64Encode, b64Decode, b64DecodeGroup,
        b64Idx_b64Char _ h1, b64Idx_b64Char _ h2]
      omega
  | [a, b], h => by
      have ha : a < 256 := h a (by simp)
      have hb : b < 256 := h b (by simp)
      have h1 : a / 4 < 64 := by omega
      have h2 : a % 4 * 16 + b / 16 < 64 := by omega
      have h3 : b % 16 * 4 < 64 := by omega
      simp [b64Encode, b64Decode, b64DecodeGroup,
        b64Idx_b64Char _ h1, b64Idx_b64Char _ h2, b64Idx_b64Char _ h3,
        b64Char_ne_pad _ h3]
      omega
  | a :: b :: c :: rest, h => by
      have ha : a < 256 := h a (by simp)
      have hb : b < 256 := h b (by simp)
      have hc : c < 256 := h c (by simp)
      have h1 : a / 4 < 64 := by omega
      have h2 : a % 4 * 16 + b / 16 < 64 := by omega
      have h3 : b % 16 * 4 + c / 64 < 64 := by omega
      have h4 : c % 64 < 64 := by omega
      have ih := b64_decode_encode rest (fun x hx => h x (by simp [hx]))
      simp [b64Encode, b64Decode, b64DecodeGroup,
        b64Idx_b64Char _ h1, b64Idx_b64Char _ h2, b64Idx_b64Char _ h3, b64Idx_b64Char _ h4,
        b64Char_ne_pad _ h3, b64Char_ne_pad _ h4, ih]
      omega

/-! ## Helper lemmas -/

theorem foldl_countStep {α : Type} (f : α → SyncResult) :
    ∀ (files : List α) (s e : Nat),
    files.foldl (fun acc fi => countStep acc (f fi)) (s, e) =
      (s + files.countP (fun fi => isSuccess (f fi)),
        e + files.countP (fun fi => !isSuccess (f fi)))
  | [], s, e => by simp
  | fi :: rest, s, e => by
      rw [List.foldl_cons]
      cases hr : f fi with
      | success =>
          rw [show countStep (s, e) SyncResult.success = (s + 1, e) from rfl,
            foldl_countStep f rest (s + 1) e]
          simp [List.countP_cons, hr, isSuccess, Prod.mk.injEq]
          omega
      | failure d =>
          rw [show countStep (s, e) (SyncResult.failure d) = (s, e + 1) from rfl,
            foldl_countStep f rest s (e + 1)]
          simp [List.countP_cons, hr, isSuccess, Prod.mk.injEq]
          omega

theorem countP_not_length {α : Type} (p : α → Bool) (l : List α) :
    l.countP p + l.countP (fun a => !p a) = l.length := by
  induction l with
  | nil => simp
  | cons a l ih =>
      by_cases h : p a <;> simp [List.countP_cons, h, ← ih] <;> omega

theorem mem_enumWith {keep : WalkEntry → Bool} {entries : List WalkEntry} {y : String}
    (hy : y ∈ enumWith keep entries) : ∃ e ∈ entries, y = relOf e := by
  rcases List.mem_filterMap.mp hy with ⟨e, he, hfe⟩
  by_cases hk : keep e
  · exact ⟨e, he, by simp [hk] at hfe; exact hfe.symm⟩
  · simp [hk] at hfe

theorem count_enumWith (keep : WalkEntry → Bool) :
    ∀ (entries : List WalkEntry), (entries.map relOf).Nodup →
    ∀ e ∈ entries, (enumWith keep entries).count (relOf e) = if keep e then 1 else 0
  | [], _, e, he => by simp at he
  | x :: xs, hnd, e, he => by
      rw [List.map_cons, List.nodup_cons] at hnd
      obtain ⟨hx, hnd'⟩ := hnd
      have hxcount : (enumWith keep xs).count (relOf x) = 0 := by
        rw [List.count_eq_zero]
        intro hmem
        rcases mem_enumWith hmem with ⟨e', he', heq⟩
        exact hx (heq ▸ List.mem_map_of_mem relOf he')
      have hcons : enumWith keep (x :: xs) =
          (if keep x then [relOf x] else []) ++ enumWith keep xs := by
        by_cases hk : keep x <;> simp [enumWith, List.filterMap_cons, hk]
      rcases List.mem_cons.mp he with rfl | hexs
      · rw [hcons, List.count_append, hxcount]
        by_cases hk : keep e <;> simp [hk]
      · have hne : relOf x ≠ relOf e := by
          intro hcontra
          exact hx (hcontra ▸ List.mem_map_of_mem relOf hexs)
        have ih := count_enumWith keep xs hnd' e hexs
        rw [hcons, List.count_append, ih]
        by_cases hk : keep x <;> simp [hk, List.count_singleton, Ne.symm hne]

theorem runCounts_spec {α : Type} (f : α → SyncResult) (files : List α) :
    files.foldl (fun acc fi => countStep acc (f fi)) (0, 0) =
      (files.length - files.countP (fun fi => !isSuccess (f fi)),
        files.countP (fun fi => !isSuccess (f fi))) ∧
    exitCode (files.foldl (fun acc fi => countStep acc (f fi)) (0, 0)) =
      (if 0 < files.countP (fun fi => !isSuccess (f fi)) then 2 else 0) ∧
    (exitCode (files.foldl (fun acc fi => countStep acc (f fi)) (0, 0)) ≠ 0 ↔
      0 < files.countP (fun fi => !isSuccess (f fi))) := by
  have hsum := countP_not_length (fun fi => isSuccess (f fi)) files
  rw [foldl_countStep f files 0 0]
  refine ⟨by simp [Prod.mk.injEq]; omega, ?_, ?_⟩
  · simp [exitCode]
  · by_cases h : 0 < files.countP (fun fi => !isSuccess (f fi)) <;> simp [exitCode, h]

theorem runCounts_prefix_le {α : Type} (f : α → SyncResult) (pre suf : List α) :
    ((pre.foldl (fun acc fi => countStep acc (f fi)) (0, 0)).1 ≤
        (((pre ++ suf).foldl (fun acc fi => countStep acc (f fi)) (0, 0)).1)) ∧
    ((pre.foldl (fun acc fi => countStep acc (f fi)) (0, 0)).2 ≤
        (((pre ++ suf).foldl (fun acc fi => countStep acc (f fi)) (0, 0)).2)) := by
  rw [foldl_countStep f pre 0 0, foldl_countStep f (pre ++ suf) 0 0]
  simp [List.countP_append]

theorem runCounts_sum {α : Type} (f : α → SyncResult) (files : List α) :
    (files.foldl (fun acc fi => countStep acc (f fi)) (0, 0)).1 +
      (files.foldl (fun acc fi => countStep acc (f fi)) (0, 0)).2 = files.length := by
  have hsum := countP_not_length (fun fi => isSuccess (f fi)) files
  rw [foldl_countStep f files 0 0]
  simp
  omega

/-! ## The claims -/

/-- C4: applying the binary-to-text encoding used to build the write
payload (base64, `base64.b64encode` at curl line 65 / gh line 41) and
then decoding reproduces the original bytes exactly, so arbitrary
binary files can be transmitted as a string payload. -/
theorem C4_base64_roundtrip (l : List Nat) (h : ∀ b ∈ l, b < 256) :
    b64Decode (b64Encode l) = l :=
  b64_decode_encode l h

theorem C4_base64_roundtrip_witness :
    (∀ b ∈ [0, 1, 77, 128, 255, 10, 66], b < 256) ∧
      b64Decode (b64Encode [0, 1, 77, 128, 255, 10, 66]) = [0, 1, 77, 128, 255, 10, 66] :=
  ⟨by decide, C4_base64_roundtrip [0, 1, 77, 128, 255, 10, 66] (by decide)⟩

/-- C3: if N files are processed of which K fail, both scripts report
success = N − K and errors = K, and exit with status 2 when K > 0 and 0
otherwise, so the exit status is nonzero exactly when K > 0. -/
theorem C3_counts_and_exit (cfiles : List CurlFileInput) (gfiles : List GhFileInput) :
    (curlRunCounts cfiles =
        (cfiles.length - cfiles.countP (fun fi => !isSuccess (curlFileStep fi).2),
          cfiles.countP (fun fi => !isSuccess (curlFileStep fi).2)) ∧
      exitCode (curlRunCounts cfiles) =
        (if 0 < cfiles.countP (fun fi => !isSuccess (curlFileStep fi).2) then 2 else 0) ∧
      (exitCode (curlRunCounts cfiles) ≠ 0 ↔
        0 < cfiles.countP (fun fi => !isSuccess (curlFileStep fi).2))) ∧
    (ghRunCounts gfiles =
        (gfiles.length - gfiles.countP (fun fi => !isSuccess (ghFileStep fi).2),
          gfiles.countP (fun fi => !isSuccess (ghFileStep fi).2)) ∧
      exitCode (ghRunCounts gfiles) =
        (if 0 < gfiles.countP (fun fi => !isSuccess (ghFileStep fi).2) then 2 else 0) ∧
      (exitCode (ghRunCounts gfiles) ≠ 0 ↔
        0 < gfiles.countP (fun fi => !isSuccess (ghFileStep fi).2))) := by
  constructor
  · simpa [curlRunCounts] using runCounts_spec (fun fi => (curlFileStep fi).2) cfiles
  · simpa [ghRunCounts] using runCounts_spec (fun fi => (ghFileStep fi).2) gfiles

/-- C10: both scripts' counters start at (0, 0); every per-file step
increments exactly one of the two counters by exactly one; counters are
non-decreasing along the run (any prefix of the file list yields
component-wise smaller counters); and at the end success + errors equals
the number of files for which a sync was attempted, read failures
included. -/
theorem C10_counter_invariants (cfiles : List CurlFileInput) (gfiles : List GhFileInput) :
    curlRunCounts [] = (0, 0) ∧ ghRunCounts [] = (0, 0) ∧
    (∀ (acc : Nat × Nat) (r : SyncResult),
      countStep acc r = (acc.1 + 1, acc.2) ∨ countStep acc r = (acc.1, acc.2 + 1)) ∧
    (∀ pre suf, cfiles = pre ++ suf →
        (curlRunCounts pre).1 ≤ (curlRunCounts cfiles).1 ∧
        (curlRunCounts pre).2 ≤ (curlRunCounts cfiles).2) ∧
    (curlRunCounts cfiles).1 + (curlRunCounts cfiles).2 = cfiles.length ∧
    (∀ pre suf, gfiles = pre ++ suf →
        (ghRunCounts pre).1 ≤ (ghRunCounts gfiles).1 ∧
        (ghRunCounts pre).2 ≤ (ghRunCounts gfiles).2) ∧
    (ghRunCounts gfiles).1 + (ghRunCounts gfiles).2 = gfiles.length := by
  refine ⟨rfl, rfl, ?_, ?_, ?_, ?_, ?_⟩
  · rintro ⟨s, e⟩ r
    cases r <;> simp [countStep]
  · rintro pre suf rfl
    simpa [curlRunCounts] using
      runCounts_prefix_le (fun fi => (curlFileStep fi).2) pre suf
  · simpa [curlRunCounts] using runCounts_sum (fun fi => (curlFileStep fi).2) cfiles
  · rintro pre suf rfl
    simpa [ghRunCounts] using
      runCounts_prefix_le (fun fi => (ghFileStep fi).2) pre suf
  · simpa [ghRunCounts] using runCounts_sum (fun fi => (ghFileStep fi).2) gfiles

theorem C10_counter_invariants_witness :
    ([] : List CurlFileInput) = [] ++ [] ∧
      (curlRunCounts []).1 ≤ (curlRunCounts ([] : List CurlFileInput)).1 :=
  ⟨rfl, ((C10_counter_invariants [] []).2.2.2.1 [] [] rfl).1⟩

/-- C6: when the walk yields each file once (distinct relative paths),
`upload_via_curl.py` attempts exactly one sync per file not skipped —
skipping exactly the paths with a `.git` component or matching its fixed
prefix/suffix exclusions — and `upload_via_gh.py` attempts exactly one
sync per file without a `.git` component, its relative-versus-absolute
self-skip comparison never matching any entry. -/
theorem C6_enumeration (entries : List WalkEntry) (scriptAbs : List String)
    (hnd : (entries.map relOf).Nodup) (habs : scriptAbs.head? = some "") :
    (∀ e ∈ entries,
        (curlEnumerate entries).count (relOf e) = if curlSkip e then 0 else 1) ∧
    (∀ e : WalkEntry, ghFp e ≠ scriptAbs) ∧
    (∀ e ∈ entries,
        (ghEnumerate scriptAbs entries).count (relOf e) =
          if e.dir.contains ".git" then 0 else 1) := by
  have hfp : ∀ e : WalkEntry, ghFp e ≠ scriptAbs := by
    intro e hcontra
    rw [← hcontra] at habs
    simp [ghFp] at habs
  refine ⟨?_, hfp, ?_⟩
  · intro e he
    have hc := count_enumWith (fun x => !curlSkip x) entries hnd e he
    cases hsk : curlSkip e <;> simp [hsk] at hc <;> simpa [curlEnumerate, hsk] using hc
  · intro e he
    have hc := count_enumWith (fun x => !ghSkip scriptAbs x) entries hnd e he
    have hc' : (enumWith (fun x => !ghSkip scriptAbs x) entries).count (relOf e) =
        if (!ghSkip scriptAbs e) = true then 1 else 0 := hc
    have hskip : ghSkip scriptAbs e = e.dir.contains ".git" := by
      simp [ghSkip, hfp e]
    rw [hskip] at hc'
    cases hgit : e.dir.contains ".git" <;> rw [hgit] at hc' <;>
      simpa [ghEnumerate] using hc'

theorem C6_enumeration_witness :
    (sampleEntries.map relOf).Nodup ∧ sampleScriptAbs.head? = some "" ∧
      (curlEnumerate sampleEntries).count (relOf ⟨[], "a.txt"⟩) =
        (if curlSkip ⟨[], "a.txt"⟩ then 0 else 1) ∧
      (curlEnumerate sampleEntries).count (relOf ⟨["astro-app", ".astro"], "x"⟩) =
        (if curlSkip ⟨["astro-app", ".astro"], "x"⟩ then 0 else 1) ∧
      (ghEnumerate sampleScriptAbs sampleEntries).count (relOf ⟨[".git"], "config"⟩) =
        (if (WalkEntry.mk [".git"] "config").dir.contains ".git" then 0 else 1) :=
  ⟨by decide, rfl,
    (C6_enumeration sampleEntries sampleScriptAbs (by decide) rfl).1 ⟨[], "a.txt"⟩ (by decide),
    (C6_enumeration sampleEntries sampleScriptAbs (by decide) rfl).1
      ⟨["astro-app", ".astro"], "x"⟩ (by decide),
    (C6_enumeration sampleEntries sampleScriptAbs (by decide) rfl).2.2
      ⟨[".git"], "config"⟩ (by decide)⟩

/-- C5: in both scripts, within one per-file iteration every write
request comes after the existence lookup for that same file: a PUT event
in the iteration's request trace always has a GET event for the same
path at a strictly earlier position. -/
theorem C5_resolve_before_write (fiC : CurlFileInput) (fiG : GhFileInput) :
    (∀ (i : Nat) (p : String) (sha : Option String),
        (curlFileStep fiC).1[i]? = some (Event.putReq p sha) →
        ∃ j, j < i ∧ (curlFileStep fiC).1[j]? = some (Event.getReq p)) ∧
    (∀ (i : Nat) (p : String) (sha : Option String),
        (ghFileStep fiG).1[i]? = some (Event.putReq p sha) →
        ∃ j, j < i ∧ (ghFileStep fiG).1[j]? = some (Event.getReq p)) := by
  constructor
  · intro i p sha hp
    cases hread : fiC.readData with
    | none =>
        simp [curlFileStep, hread] at hp
        rcases i with _ | i
        · simp at hp
        · simp at hp
    | some bytes =>
        simp [curlFileStep, hread] at hp
        rcases i with _ | _ | i
        · simp at hp
        · simp at hp
          refine ⟨0, by omega, ?_⟩
          simp [curlFileStep, hread, hp.1]
        · simp at hp
  · intro i p sha hp
    cases hread : fiG.readData with
    | none =>
        simp [ghFileStep, hread] at hp
    | some bytes =>
        simp [ghFileStep, hread] at hp
        rcases i with _ | _ | i
        · simp at hp
        · simp at hp
          refine ⟨0, by omega, ?_⟩
          simp [ghFileStep, hread, hp.1]
        · simp at hp

theorem C5_resolve_before_write_witness :
    ∃ j, j < 1 ∧ (curlFileStep sampleCurlInput).1[j]? = some (Event.getReq "b.bin") :=
  (C5_resolve_before_write sampleCurlInput sampleGhInput).1 1 "b.bin" (some "T1") (by decide)

/-- C1: whenever a file's bytes are readable, each script issues the
write request, and that request carries the concurrency token exactly
when the remote lookup completed with return code 0 and a parseable body
whose `sha` field is a nonempty string; a lookup that timed out, failed
in transport, returned not-found (nonzero return code), or produced a
malformed or tokenless body leads to a tokenless create-style write that
is still attempted. -/
theorem C1_token_iff_lookup_success (fiC : CurlFileInput) (fiG : GhFileInput)
    (bc bg : List Nat) (hc : fiC.readData = some bc) (hg : fiG.readData = some bg) :
    ((curlFileStep fiC).1 =
        [Event.getReq fiC.rel,
          Event.putReq fiC.rel (shaIfTruthy (curlLookupSha fiC.lookup))] ∧
      ∀ s, shaIfTruthy (curlLookupSha fiC.lookup) = some s ↔
        (fiC.lookup = CurlLookup.completed 0 (GetBody.jsonObj (ShaField.str s)) ∧ s ≠ "")) ∧
    ((ghFileStep fiG).1 =
        [Event.getReq fiG.rel,
          Event.putReq fiG.rel (shaIfTruthy (ghLookupSha fiG.lookupRc fiG.lookupBody))] ∧
      ∀ s, shaIfTruthy (ghLookupSha fiG.lookupRc fiG.lookupBody) = some s ↔
        (fiG.lookupRc = 0 ∧ fiG.lookupBody = GetBody.jsonObj (ShaField.str s) ∧ s ≠ "")) := by
  refine ⟨⟨by simp [curlFileStep, hc, curlPayload], ?_⟩,
    ⟨by simp [ghFileStep, hg], ?_⟩⟩
  · intro s
    cases hl : fiC.lookup with
    | timeout => simp [curlLookupSha, curl_gh_get, shaIfTruthy, truthy]
    | completed rc body =>
        by_cases hrc : rc = 0
        · subst hrc
          cases body with
          | malformed => simp [curlLookupSha, curl_gh_get, shaIfTruthy, truthy]
          | jsonObj sf =>
              cases sf with
              | absent => simp [curlLookupSha, curl_gh_get, dictGetSha, shaIfTruthy, truthy]
              | null => simp [curlLookupSha, curl_gh_get, dictGetSha, shaIfTruthy, truthy]
              | str t =>
                  by_cases ht : t = "" <;>
                    simp [curlLookupSha, curl_gh_get, dictGetSha, shaIfTruthy, truthy, ht] <;>
                    aesop
        · simp [curlLookupSha, curl_gh_get, shaIfTruthy, truthy, hrc]
  · intro s
    by_cases hrc : fiG.lookupRc = 0
    · cases hb : fiG.lookupBody with
      | malformed => simp [ghLookupSha, hrc, hb, shaIfTruthy, truthy]
      | jsonObj sf =>
          cases sf with
          | absent => simp [ghLookupSha, hrc, hb, shaIfTruthy, truthy]
          | null => simp [ghLookupSha, hrc, hb, shaIfTruthy, truthy]
          | str t =>
              by_cases ht : t = "" <;>
                simp [ghLookupSha, hrc, hb, shaIfTruthy, truthy, ht] <;> aesop
    · simp [ghLookupSha, hrc, shaIfTruthy, truthy]

theorem C1_token_iff_lookup_success_witness :
    sampleCurlInput.readData = some [5] ∧ sampleGhInput.readData = some [7] ∧
      (shaIfTruthy (curlLookupSha sampleCurlInput.lookup) = some "T1" ↔
        (sampleCurlInput.lookup =
            CurlLookup.completed 0 (GetBody.jsonObj (ShaField.str "T1")) ∧ "T1" ≠ "")) :=
  ⟨rfl, rfl,
    ((C1_token_iff_lookup_success sampleCurlInput sampleGhInput [5] [7] rfl rfl).1.2) "T1"⟩

/-- C9: in both scripts the write request carries the token field iff
the value extracted from the lookup response is Python-truthy; a lookup
body whose `sha` field is present but the empty string, or `null`,
yields the same tokenless create-style request as a not-found lookup. -/
theorem C9_truthiness_guard (rel content : String) (sha : Option String) :
    ((curlPayload rel content sha).sha ≠ none ↔ truthy sha = true) ∧
    (ghPutShaArgs sha ≠ [] ↔ truthy sha = true) ∧
    (curlPayload rel content (curlLookupSha
        (CurlLookup.completed 0 (GetBody.jsonObj (ShaField.str ""))))).sha = none ∧
    (curlPayload rel content (curlLookupSha
        (CurlLookup.completed 0 (GetBody.jsonObj ShaField.null)))).sha = none ∧
    ghPutShaArgs (ghLookupSha 0 (GetBody.jsonObj (ShaField.str ""))) = [] ∧
    ghPutShaArgs (ghLookupSha 0 (GetBody.jsonObj ShaField.null)) = [] ∧
    gh_put_cmd rel "m" content (ghLookupSha 0 (GetBody.jsonObj ShaField.null)) =
      gh_put_cmd rel "m" content (ghLookupSha 1 GetBody.malformed) := by
  refine ⟨?_, ?_, by simp [curlPayload, curlLookupSha, curl_gh_get, dictGetSha,
      shaIfTruthy, truthy], by simp [curlPayload, curlLookupSha, curl_gh_get, dictGetSha,
      shaIfTruthy, truthy], rfl, rfl, rfl⟩
  · cases sha with
    | none => simp [curlPayload, shaIfTruthy, truthy]
    | some s =>
        by_cases hs : s = "" <;> simp [curlPayload, shaIfTruthy, truthy, hs]
  · cases sha with
    | none => simp [ghPutShaArgs, shaIfTruthy, truthy]
    | some s =>
        by_cases hs : s = "" <;> simp [ghPutShaArgs, shaIfTruthy, truthy, hs]

/-- C2 counterexample: in `upload_via_gh.py`, a PUT whose process exits
0 but whose response body is a JSON object with no `content` field is
recorded as Success, though the claim requires any response lacking the
stored-object marker to be a Failure. -/
theorem C2_counterexample :
    (ghFileStep ⟨"a.txt", some [7], 1, GetBody.malformed, 0, PutBody.jsonObj false, ""⟩).2 =
        SyncResult.success ∧
      (⟨"a.txt", some [7], 1, GetBody.malformed, 0, PutBody.jsonObj false, ""⟩ :
          GhFileInput).putStdout = PutBody.jsonObj false :=
  ⟨rfl, rfl⟩

/-- C2 (amended): in `upload_via_curl.py` a sync attempt is Success
exactly when the curl process exited 0 and its stdout parsed to a JSON
object containing a `content` field, every other outcome — transport
failure, timeout, malformed body, marker-less body — being a Failure
carrying the raw diagnostic text; in `upload_via_gh.py` a sync attempt
is Success exactly when the gh process exited 0, the response body never
being inspected. -/
theorem C2_success_marker (rc : Int) (body : PutBody) (out err : String) (hrc : rc ≠ 0) :
    (∀ p : CurlPut, curlClassify p = SyncResult.success ↔
        ∃ o e, p = CurlPut.completed 0 (PutBody.jsonObj true) o e) ∧
    curlClassify CurlPut.timeout = SyncResult.failure "curl timeout" ∧
    curlClassify (CurlPut.completed 0 PutBody.malformed out err) =
      SyncResult.failure "invalid response" ∧
    curlClassify (CurlPut.completed 0 (PutBody.jsonObj false) out err) =
      SyncResult.failure out ∧
    curlClassify (CurlPut.completed rc body out err) = SyncResult.failure err ∧
    (∀ (prc : Int) (perr : String), ghClassify prc perr = SyncResult.success ↔ prc = 0) ∧
    ghClassify rc err = SyncResult.failure err := by
  refine ⟨?_, rfl, rfl, rfl, ?_, ?_, ?_⟩
  · intro p
    cases p with
    | timeout => simp [curlClassify]
    | completed prc pbody pout perr =>
        by_cases hprc : prc = 0
        · subst hprc
          cases pbody with
          | malformed => simp [curlClassify]
          | jsonObj hasContent => cases hasContent <;> simp [curlClassify]
        · simp [curlClassify, hprc]
  · cases body <;> simp [curlClassify, hrc]
  · intro prc perr
    by_cases hprc : prc = 0 <;> simp [ghClassify, hprc]
  · simp [ghClassify, hrc]

theorem C2_success_marker_witness :
    (1 : Int) ≠ 0 ∧
      curlClassify (CurlPut.completed 1 (PutBody.jsonObj true) "o" "e") =
        SyncResult.failure "e" :=
  ⟨by decide, (C2_success_marker 1 (PutBody.jsonObj true) "o" "e" (by decide)).2.2.2.2.1⟩

/-- C7 counterexample: `upload_via_gh.py` never invokes an external
authentication helper at startup — its pre-walk subprocess call list is
empty, not a single helper invocation as the claim requires. -/
theorem C7_counterexample :
    ghStartupCalls.length = 0 ∧ ¬ ghStartupCalls.length = 1 :=
  ⟨rfl, by decide⟩

/-- C7 (amended): `upload_via_curl.py` invokes the authentication helper
(`gh auth token`) exactly once at startup, before the walk; when the
helper times out or exits nonzero the program aborts with exit status 2
without processing any file, and when it succeeds the run proceeds to
the walk.  `upload_via_gh.py` performs no startup credential
acquisition at all, delegating authentication to `gh` on each call. -/
theorem C7_startup_token (files : List CurlFileInput) (rc : Int) (out : String)
    (hrc : rc ≠ 0) :
    curlStartupCalls.length = 1 ∧
    curlMain TokenOutcome.timeout files = RunOutcome.aborted 2 ∧
    curlMain (TokenOutcome.completed rc out) files = RunOutcome.aborted 2 ∧
    (∀ out2, curlMain (TokenOutcome.completed 0 out2) files =
        RunOutcome.ran (curlRunCounts files).1 (curlRunCounts files).2
          (exitCode (curlRunCounts files))) ∧
    ghStartupCalls = [] := by
  refine ⟨rfl, rfl, ?_, fun out2 => rfl, rfl⟩
  simp [curlMain, get_token, hrc]

theorem C7_startup_token_witness :
    (1 : Int) ≠ 0 ∧ curlMain (TokenOutcome.completed 1 "tok") [] = RunOutcome.aborted 2 :=
  ⟨by decide, (C7_startup_token [] 1 "tok" (by decide)).2.2.1⟩

/-- C8 counterexample: both network calls of `upload_via_gh.py` — the
existence lookup and the upload — are blocking subprocess invocations
issued with no timeout bound at all. -/
theorem C8_counterexample :
    (ghGetCall "a.txt").timeoutSec = none ∧
      (ghPutCall "a.txt" "chore: add a.txt via API" "" none).timeoutSec = none :=
  ⟨rfl, rfl⟩

/-- C8 (amended): every blocking call of `upload_via_curl.py` carries an
explicit timeout — 10 s for the token helper, 60 s for existence
lookups and 120 s for uploads, the lookup bound strictly shorter — and
after a timeout the call is abandoned with per-file effect only: a
timed-out lookup is treated as non-existence (no token) and a timed-out
upload as that file's failure.  The calls of `upload_via_gh.py`, by
contrast, carry no timeout. -/
theorem C8_timeouts (path url message content : String) (headers : List String)
    (sha : Option String) (t1 t2 : Nat)
    (h1 : (curlGetCall path).timeoutSec = some t1)
    (h2 : (curlPutCall headers url).timeoutSec = some t2) :
    (curlGetCall path).timeoutSec = some 60 ∧
    curlTokenCall.timeoutSec = some 10 ∧
    (curlPutCall headers url).timeoutSec = some 120 ∧
    t1 < t2 ∧
    curlLookupSha CurlLookup.timeout = none ∧
    (∀ fi : CurlFileInput, fi.put = CurlPut.timeout → ∀ bytes,
        fi.readData = some bytes → (curlFileStep fi).2 = SyncResult.failure "curl timeout") ∧
    (ghGetCall path).timeoutSec = none ∧
    (ghPutCall path message content sha).timeoutSec = none := by
  refine ⟨rfl, rfl, rfl, ?_, rfl, ?_, rfl, rfl⟩
  · simp [curlGetCall] at h1
    simp [curlPutCall] at h2
    omega
  · intro fi hput bytes hread
    simp [curlFileStep, hread, hput, curlClassify]

theorem C8_timeouts_witness :
    (curlGetCall "a.txt").timeoutSec = some 60 ∧
      (curlPutCall [] "u").timeoutSec = some 120 ∧ 60 < 120 :=
  ⟨(C8_timeouts "a.txt" "u" "m" "c" [] none 60 120 rfl rfl).1,
    (C8_timeouts "a.txt" "u" "m" "c" [] none 60 120 rfl rfl).2.2.1,
    (C8_timeouts "a.txt" "u" "m" "c" [] none 60 120 rfl rfl).2.2.2.1⟩

end Baptiste
